import Mathlib

/-!
Shallow embedding of the interview-session backend of the AI interview
platform (the Express handlers in backend/server.js as embedded in the
repository README) together with the client-side pieces of the session
lifecycle (src/pages/InterviewSession.tsx), and proofs about the session
lifecycle state machine.

Modelling conventions:
* Firestore's `interviews` collection is an association list from document
  id to document; `get` is `Store.find`, `set`/`update` is `Store.put`
  (an `update` merges fields in the source; the embedding passes the
  fully updated document).
* Every handler is a function from the store (and its request data) to a
  response together with the resulting store, so "performs no write" is
  the statement that the returned store equals the input store.
* Calls into the Gemini generative service are modelled by an explicit
  reply argument describing the upstream outcome (failure, unparseable
  text, or parsed content); a handler "does not call the service" when
  its result does not depend on that argument.
* JS strings are `String`, with `""` standing for a missing or otherwise
  falsy string field; JS numbers carried by the lifecycle are `Int`
  (`Option Int` where `undefined` must be distinguished).
-/

namespace InterviewPlatform

/-- A question record as generated and stored in the interview document:
`{ id, text }`. `id = ""` models a missing/falsy id. -/
structure Question where
  id : String
  text : String
deriving DecidableEq, Repr

/-- One key-point judgment (`{ text, met }`) attached to an evaluated
answer. -/
structure KeyPoint where
  text : String
  met : Bool
deriving DecidableEq, Repr

/-- A detailed answered question, as assembled by the client
(`AnsweredQuestion` in InterviewSession.tsx) and persisted verbatim by
the complete route. -/
structure AnsweredQuestion where
  id : String
  text : String
  userAnswer : String
  feedback : String
  score : Int
  keyPoints : List KeyPoint
deriving DecidableEq, Repr

/-- Session status strings written by the backend. -/
inductive Status where
  | active
  | completed
  | cancelled
deriving DecidableEq, Repr

/-- The interview document stored in the `interviews` collection. The
source keeps the materialized `{id, text}` list and, after completion,
the detailed per-answer results in the same schema-less `questions`
field; the typed embedding splits them into `questions` and
`resultQuestions`. Fields that never influence a lifecycle decision
(scheduledDate, scheduledTime, userEmail, userName, timestamps) are
omitted. -/
structure SessionDoc where
  userId : String
  category : String
  difficulty : String
  numQuestions : Int
  status : Status
  questions : List Question
  resultQuestions : List AnsweredQuestion
  overallScore : Option Int
  strengths : List String
  improvements : List String
  duration : Option String
deriving DecidableEq, Repr

/-- The `interviews` collection: document id ↦ document. -/
abbrev Store := List (String × SessionDoc)

/-- `db.collection('interviews').doc(id).get()`: first (in Firestore,
only) document keyed by `id`. -/
def Store.find : Store → String → Option SessionDoc
  | [], _ => none
  | (k, v) :: t, id => if k = id then some v else Store.find t id

/-- `doc(id).set(...)` / `doc(id).update(...)`: replace the document
keyed by `id`, appending it when absent (an `update` merges fields in
the source; the embedding passes the fully updated document). -/
def Store.put : Store → String → SessionDoc → Store
  | [], id, d => [(id, d)]
  | (k, v) :: t, id, d =>
    if k = id then (id, d) :: t else (k, v) :: Store.put t id d

/-- Error responses of the API routes; `ApiError.httpStatus` gives the
HTTP status each maps to in the source. -/
inductive ApiError where
  | invalidArgument (msg : String)
  | forbidden (msg : String)
  | notFound (msg : String)
  | invalidState (msg : String)
  | upstream (msg : String)
deriving DecidableEq, Repr

/-- HTTP status of each error response in the source handlers (the
status-guard rejections are sent as 400 there). -/
def ApiError.httpStatus : ApiError → Nat
  | .invalidArgument _ => 400
  | .forbidden _ => 403
  | .notFound _ => 404
  | .invalidState _ => 400
  | .upstream _ => 500

/-- Request body of POST /api/schedule-interview (fields relevant to the
lifecycle; interviewDate, interviewTime, userEmail, userName are stored
but never read by a lifecycle decision). `numQuestions = none` models a
body whose numQuestions is not a number. -/
structure CreateBody where
  userId : String
  category : String
  difficulty : String
  numQuestions : Option Int
deriving DecidableEq, Repr

/-- POST /api/schedule-interview: create a session. `authUid` is
`req.user.uid` from the verified token and `newId` stands for the
`uuidv4()` document id. Mirrors the source order: the body-vs-token
user-id check first, the parameter validation second, the document
write last. -/
def scheduleInterview (store : Store) (authUid : String) (body : CreateBody)
    (newId : String) : Except ApiError String × Store :=
  if body.userId ≠ authUid then
    (.error (.forbidden "Unauthorized: User ID mismatch."), store)
  else
    match body.numQuestions with
    | none =>
      (.error (.invalidArgument "Missing or invalid required interview parameters (userId, category, difficulty, numQuestions)."), store)
    | some n =>
      if body.userId = "" ∨ body.category = "" ∨ body.difficulty = "" ∨ n ≤ 0 then
        (.error (.invalidArgument "Missing or invalid required interview parameters (userId, category, difficulty, numQuestions)."), store)
      else
        let doc : SessionDoc := {
          userId := body.userId
          category := body.category
          difficulty := body.difficulty
          numQuestions := n
          status := .active
          questions := []
          resultQuestions := []
          overallScore := none
          strengths := []
          improvements := []
          duration := none }
        (.ok newId, store.put newId doc)

/-- Upstream reply for question generation. `fail` covers the Gemini
call rejecting, `JSON.parse` throwing, and a parsed object without a
`questions` array — in the source all three throw and reach the route's
catch block. `ok qs` is the parsed `questions` array; a question with
`id = ""` models an entry whose id is missing/falsy. -/
inductive GenQuestionsReply where
  | fail
  | ok (qs : List Question)
deriving DecidableEq, Repr

/-- `generatedQuestions.map(q => ({ id: q.id || uuidv4(), text: q.text }))`:
fill falsy ids from the uuid supply `fresh`, starting at index `i`. -/
def assignIds (fresh : Nat → String) : Nat → List Question → List Question
  | _, [] => []
  | i, q :: qs =>
    { id := if q.id = "" then fresh i else q.id, text := q.text } ::
      assignIds fresh (i + 1) qs

/-- Response of GET /api/interviews/:interviewId. -/
structure GetInterviewResponse where
  interviewId : String
  category : String
  difficulty : String
  totalQuestions : Int
  questions : List Question
  durationMinutes : Int
  status : Status
deriving DecidableEq, Repr

/-- GET /api/interviews/:interviewId: fetch a session, lazily generating
and persisting its question list on the first read that finds it empty.
`callerId` is `req.user.uid`; `reply` is the generative-service outcome,
consumed only inside the generation branch; `fresh` is the uuid supply
for missing question ids. -/
def getInterview (store : Store) (interviewId callerId : String)
    (reply : GenQuestionsReply) (fresh : Nat → String) :
    Except ApiError GetInterviewResponse × Store :=
  if interviewId = "" then
    (.error (.invalidArgument "Interview ID is required."), store)
  else
    match store.find interviewId with
    | none => (.error (.notFound "Interview not found."), store)
    | some doc =>
      if doc.userId ≠ callerId then
        (.error (.forbidden "Access denied. This interview does not belong to your account."), store)
      else if doc.status ≠ .active ∧ doc.status ≠ .completed then
        (.error (.invalidState "Interview cannot be resumed."), store)
      else if doc.questions = [] then
        match reply with
        | .fail =>
          (.error (.upstream "Failed to parse generated questions from AI."), store)
        | .ok qs =>
          let generatedQuestions := assignIds fresh 0 qs
          (.ok {
            interviewId := interviewId
            category := doc.category
            difficulty := doc.difficulty
            totalQuestions := doc.numQuestions
            questions := generatedQuestions
            durationMinutes := if doc.numQuestions = 10 then 30 else 15
            status := doc.status },
           store.put interviewId { doc with questions := generatedQuestions })
      else
        (.ok {
          interviewId := interviewId
          category := doc.category
          difficulty := doc.difficulty
          totalQuestions := doc.numQuestions
          questions := doc.questions
          durationMinutes := if doc.numQuestions = 10 then 30 else 15
          status := doc.status },
         store)

/-- PUT /api/interviews/:interviewId/cancel. -/
def cancelInterview (store : Store) (interviewId callerId : String) :
    Except ApiError Unit × Store :=
  if interviewId = "" then
    (.error (.invalidArgument "Interview ID is required."), store)
  else
    match store.find interviewId with
    | none => (.error (.notFound "Interview not found."), store)
    | some doc =>
      if doc.userId ≠ callerId then
        (.error (.forbidden "Access denied. This interview does not belong to your account."), store)
      else if doc.status ≠ .active then
        (.error (.invalidState "Interview cannot be cancelled."), store)
      else
        (.ok (), store.put interviewId { doc with status := .cancelled })

/-- Request body of POST /api/interview/complete, exactly as the handler
reads it: the validation requires `interviewId`, a `questions` array and
a defined `overallScore` (`none` models `undefined` / a non-array value);
`strengths`/`improvements` fall back to `[]` and `duration` to `null`
when falsy, so an absent list is modelled as `[]` and an absent duration
as `""`. -/
structure CompleteBody where
  interviewId : String
  overallScore : Option Int
  strengths : List String
  improvements : List String
  questions : Option (List AnsweredQuestion)
  duration : String
deriving DecidableEq, Repr

/-- POST /api/interview/complete: finalize a session. The handler trusts
the client body: the stored overallScore, strengths, improvements,
detailed questions and duration all come verbatim from the request; no
aggregate is recomputed server-side. -/
def completeInterview (store : Store) (callerId : String) (body : CompleteBody) :
    Except ApiError Unit × Store :=
  match body.questions, body.overallScore with
  | some qs, some score =>
    if body.interviewId = "" then
      (.error (.invalidArgument "Missing or invalid data for completing interview."), store)
    else
      match store.find body.interviewId with
      | none => (.error (.notFound "Interview not found."), store)
      | some doc =>
        if doc.userId ≠ callerId then
          (.error (.forbidden "Access denied. This interview does not belong to your account."), store)
        else if doc.status ≠ .active then
          (.error (.invalidState "Interview is already completed or cancelled. Cannot complete."), store)
        else
          (.ok (), store.put body.interviewId { doc with
            status := .completed
            overallScore := some score
            strengths := body.strengths
            improvements := body.improvements
            resultQuestions := qs
            duration := if body.duration = "" then none else some body.duration })
  | _, _ =>
    (.error (.invalidArgument "Missing or invalid data for completing interview."), store)

/-- Response of GET /api/interviews/results/:interviewId. -/
structure ResultsResponse where
  id : String
  category : String
  difficulty : String
  duration : String
  overallScore : Int
  strengths : List String
  improvements : List String
  questions : List AnsweredQuestion
deriving DecidableEq, Repr

/-- GET /api/interviews/results/:interviewId: read-only fetch of a
completed session's results (the route performs no Firestore write; the
store is threaded through unchanged to make that explicit). -/
def getInterviewResults (store : Store) (interviewId callerId : String) :
    Except ApiError ResultsResponse × Store :=
  if interviewId = "" then
    (.error (.invalidArgument "Interview ID is required."), store)
  else
    match store.find interviewId with
    | none => (.error (.notFound "Interview not found."), store)
    | some doc =>
      if doc.userId ≠ callerId then
        (.error (.forbidden "Access denied. This interview does not belong to your account."), store)
      else
        match doc.overallScore with
        | none => (.error (.notFound "Interview results not found."), store)
        | some score =>
          if doc.status ≠ .completed ∨ doc.resultQuestions = [] then
            (.error (.notFound "Interview results not found."), store)
          else
            (.ok {
              id := interviewId
              category := doc.category
              difficulty := doc.difficulty
              duration := doc.duration.getD
                (if doc.numQuestions = 10 then "30 minutes" else "15 minutes")
              overallScore := score
              strengths := doc.strengths
              improvements := doc.improvements
              questions := doc.resultQuestions },
             store)

/-- The structured data fed to the PDF renderer by
GET /api/interviews/results/:interviewId/download (the PDF layout
itself is out of scope). -/
structure ReportData where
  category : String
  difficulty : String
  duration : Option String
  overallScore : Int
  strengths : List String
  improvements : List String
  questions : List AnsweredQuestion
deriving DecidableEq, Repr

/-- GET /api/interviews/results/:interviewId/download: read-only report
generation over the stored document (no Firestore write). -/
def downloadInterviewReport (store : Store) (interviewId callerId : String) :
    Except ApiError ReportData × Store :=
  if interviewId = "" then
    (.error (.invalidArgument "Interview ID is required."), store)
  else
    match store.find interviewId with
    | none => (.error (.notFound "Interview report not found."), store)
    | some doc =>
      if doc.userId ≠ callerId then
        (.error (.forbidden "Access denied. This interview report does not belong to your account."), store)
      else
        match doc.overallScore with
        | none => (.error (.notFound "Interview results not complete or available for download."), store)
        | some score =>
          if doc.status ≠ .completed ∨ doc.resultQuestions = [] then
            (.error (.notFound "Interview results not complete or available for download."), store)
          else
            (.ok {
              category := doc.category
              difficulty := doc.difficulty
              duration := doc.duration
              overallScore := score
              strengths := doc.strengths
              improvements := doc.improvements
              questions := doc.resultQuestions },
             store)

/-- Request body of POST /api/interview/evaluate. All six fields are
strings in the source; `""` models a missing/falsy field. (A non-string
`userAnswer` is rejected by the handler's typeof check; in the typed
embedding `userAnswer` is always a string, so that rejection cannot
fire.) -/
structure EvaluateBody where
  question : String
  userAnswer : String
  category : String
  difficulty : String
  interviewId : String
  questionId : String
deriving DecidableEq, Repr

/-- The source's `question.trim() === ''` check: a string trims to the
empty string exactly when all of its characters are whitespace. -/
def isBlank (s : String) : Bool :=
  s.data.all (fun c => c.isWhitespace)

/-- Upstream reply for answer evaluation: `apiFail` is the Gemini call
rejecting; `parseFail raw` is `JSON.parse` throwing on the raw text
`raw`; `ok` carries the parsed fields, where `none` models a missing or
wrongly typed field (`feedback = some ""` and `keyPoints = some []` are
falsy and behave like the missing field, matching the `||` defaults in
the source). -/
inductive EvalReply where
  | apiFail (msg : String)
  | parseFail (raw : String)
  | ok (feedback : Option String) (score : Option Int) (keyPoints : Option (List KeyPoint))
deriving DecidableEq, Repr

/-- Outcome of POST /api/interview/evaluate, tagged by response shape;
`EvalOutcome.httpStatus` is the HTTP status it is sent with. Note that
`parseFailure` carries the degraded default body (explanatory feedback,
score 50, one unmet key point) but is sent as a 500 in the source. -/
inductive EvalOutcome where
  | badRequest (msg : String)
  | success (feedback : String) (score : Int) (keyPoints : List KeyPoint)
  | parseFailure (msg : String) (feedback : String) (score : Int) (keyPoints : List KeyPoint)
  | geminiFailure (msg : String)
deriving DecidableEq, Repr

def EvalOutcome.httpStatus : EvalOutcome → Nat
  | .badRequest _ => 400
  | .success _ _ _ => 200
  | .parseFailure _ _ _ _ => 500
  | .geminiFailure _ => 500

/-- POST /api/interview/evaluate. `callerId` is `req.user.uid`, which
the source handler receives but never uses: the route neither reads the
interview document nor compares the caller with the session owner, and
it performs no Firestore access at all — the store is returned
unchanged on every path. The parsed score is passed through with no
range or integrality check (`0` when the field is missing or not a
number, `50` on an unparseable reply). -/
def evaluateAnswer (store : Store) (callerId : String) (body : EvaluateBody)
    (reply : EvalReply) : EvalOutcome × Store :=
  if isBlank body.question then
    (.badRequest "Interview question is required.", store)
  else if body.category = "" ∨ body.difficulty = "" then
    (.badRequest "Category and difficulty are required for AI evaluation context.", store)
  else if body.interviewId = "" ∨ body.questionId = "" then
    (.badRequest "Interview ID and Question ID are required for evaluation.", store)
  else
    match reply with
    | .apiFail _ =>
      (.geminiFailure "Failed to get AI feedback from Gemini.", store)
    | .parseFail raw =>
      (.parseFailure "AI provided malformed response. Please try again."
        ("Failed to parse AI feedback. Raw response: " ++ raw) 50
        [{ text := "AI response parsing failed", met := false }], store)
    | .ok f sc kp =>
      let aiFeedback :=
        match f with
        | some s => if s = "" then "No specific feedback provided." else s
        | none => "No specific feedback provided."
      (.success aiFeedback (sc.getD 0) (kp.getD []), store)

/-- Client state update inside `handleSubmitAnswer`
(InterviewSession.tsx): `findIndex` on the question id, then
`updatedAnswers[existingQuestionIndex] = newAnsweredQuestion` when
found, else append. The recursion replaces the first matching record
and keeps everything else, which is exactly findIndex-then-set. -/
def upsertAnswer : List AnsweredQuestion → AnsweredQuestion → List AnsweredQuestion
  | [], na => [na]
  | a :: t, na => if a.id = na.id then na :: t else a :: upsertAnswer t na

/-- Client handling of the evaluate response in `handleSubmitAnswer`:
on a non-2xx response the client throws before reaching `setAnswers`,
leaving the collected answers unchanged (the submitted answer is lost);
on a 200 it upserts a record built from the response fields. -/
def clientHandleEvaluate (prev : List AnsweredQuestion)
    (questionId questionText answerText : String) (outcome : EvalOutcome) :
    List AnsweredQuestion :=
  match outcome with
  | .success f sc kp =>
    upsertAnswer prev {
      id := questionId
      text := questionText
      userAnswer := answerText
      feedback := f
      score := sc
      keyPoints := kp }
  | _ => prev

/-- Client aggregate in `completeInterview` (InterviewSession.tsx):
`Math.round(totalScore / answers.length)` with `0` when no answer was
evaluated. `round` on ℚ is `⌊x + 1/2⌋`, which is exactly JS
`Math.round` (halves round toward +∞). -/
def clientOverallScore (answers : List AnsweredQuestion) : Int :=
  if answers.length > 0 then
    round (((answers.map (fun a => a.score)).sum : ℚ) / (answers.length : ℚ))
  else 0

deriving instance DecidableEq for Except

/-! ### Concrete fixtures used by counterexamples and witnesses -/

/-- An active session owned by "u1" with one materialized question. -/
def sampleDoc : SessionDoc := {
  userId := "u1"
  category := "HR"
  difficulty := "Easy"
  numQuestions := 3
  status := .active
  questions := [{ id := "q1", text := "What is HR?" }]
  resultQuestions := []
  overallScore := none
  strengths := []
  improvements := []
  duration := none }

def sampleStore : Store := [("i1", sampleDoc)]

/-- The same session before question materialization. -/
def emptyQDoc : SessionDoc := { sampleDoc with questions := [] }

def emptyQStore : Store := [("i1", emptyQDoc)]

/-- A well-formed evaluate request for the sample session. -/
def sampleEvalBody : EvaluateBody := {
  question := "What is HR?"
  userAnswer := "A"
  category := "HR"
  difficulty := "Easy"
  interviewId := "i1"
  questionId := "q1" }

/-- The same request with an empty answer text. -/
def emptyAnswerEvalBody : EvaluateBody := { sampleEvalBody with userAnswer := "" }

/-- One evaluated answer with score 50. -/
def sampleAnswers : List AnsweredQuestion := [{
  id := "q1"
  text := "What is HR?"
  userAnswer := "A"
  feedback := "f"
  score := 50
  keyPoints := [] }]

/-- A re-answer of question "q1" with a different score. -/
def newAnswer : AnsweredQuestion := {
  id := "q1"
  text := "What is HR?"
  userAnswer := "B"
  feedback := "g"
  score := 70
  keyPoints := [] }

/-- A second re-answer of the same question. -/
def newAnswer2 : AnsweredQuestion := { newAnswer with score := 90 }

/-- A complete-request body whose client-supplied overallScore (999)
disagrees with the answers it carries. -/
def mismatchedCompleteBody : CompleteBody := {
  interviewId := "i1"
  overallScore := some 999
  strengths := []
  improvements := []
  questions := some sampleAnswers
  duration := "2:00" }

/-- The complete-request body the repository's client sends for the
single sample answer: overallScore 50 = round(50 / 1). -/
def honestCompleteBody : CompleteBody :=
  { mismatchedCompleteBody with overallScore := some 50 }

/-! ### Helper lemmas -/

/-- Reading back the document just written. -/
theorem Store.find_put (store : Store) (id : String) (d : SessionDoc) :
    (store.put id d).find id = some d := by
  induction store with
  | nil => simp [Store.put, Store.find]
  | cons p t ih =>
    obtain ⟨k, v⟩ := p
    by_cases h : k = id
    · simp [Store.put, Store.find, h]
    · simp [Store.put, Store.find, h, ih]

/-- The evaluate route touches no document: the store comes back
unchanged on every path. -/
theorem evaluateAnswer_store_unchanged (store : Store) (callerId : String)
    (body : EvaluateBody) (reply : EvalReply) :
    (evaluateAnswer store callerId body reply).2 = store := by
  unfold evaluateAnswer
  repeat' split
  all_goals rfl

/-- After an upsert there is exactly one record carrying the upserted
question id, provided the previous collection had no duplicate ids. -/
theorem upsertAnswer_countP (prev : List AnsweredQuestion) (na : AnsweredQuestion)
    (h : (prev.map (fun a => a.id)).Nodup) :
    (upsertAnswer prev na).countP (fun a => a.id = na.id) = 1 := by
  induction prev with
  | nil => simp [upsertAnswer]
  | cons a t ih =>
    simp only [List.map_cons, List.nodup_cons] at h
    by_cases hid : a.id = na.id
    · have ht : t.countP (fun x => x.id = na.id) = 0 := by
        rw [List.countP_eq_zero]
        intro x hx hcontra
        exact h.1 (hid ▸ (of_decide_eq_true hcontra ▸ List.mem_map_of_mem (fun a => a.id) hx))
      simp [upsertAnswer, hid, List.countP_cons, ht]
    · simp [upsertAnswer, hid, List.countP_cons, ih h.2]

/-- Every id in the upserted collection is the new id or an old one. -/
theorem upsertAnswer_ids_subset (prev : List AnsweredQuestion) (na : AnsweredQuestion) :
    ∀ s ∈ (upsertAnswer prev na).map (fun a => a.id),
      s = na.id ∨ s ∈ prev.map (fun a => a.id) := by
  induction prev with
  | nil => simp [upsertAnswer]
  | cons a t ih =>
    by_cases hid : a.id = na.id
    · intro s hs
      simp only [upsertAnswer, if_pos hid, List.map_cons, List.mem_cons] at hs ⊢
      tauto
    · intro s hs
      simp only [upsertAnswer, if_neg hid, List.map_cons, List.mem_cons] at hs ⊢
      rcases hs with hs | hs
      · tauto
      · rcases ih s hs with h1 | h2 <;> tauto

/-- Upserting preserves distinctness of question ids. -/
theorem upsertAnswer_ids_nodup (prev : List AnsweredQuestion) (na : AnsweredQuestion)
    (h : (prev.map (fun a => a.id)).Nodup) :
    ((upsertAnswer prev na).map (fun a => a.id)).Nodup := by
  induction prev with
  | nil => simp [upsertAnswer]
  | cons a t ih =>
    simp only [List.map_cons, List.nodup_cons] at h
    by_cases hid : a.id = na.id
    · simp only [upsertAnswer, if_pos hid, List.map_cons, List.nodup_cons]
      exact ⟨hid ▸ h.1, h.2⟩
    · simp only [upsertAnswer, if_neg hid, List.map_cons, List.nodup_cons]
      refine ⟨fun hmem => ?_, ih h.2⟩
      rcases upsertAnswer_ids_subset t na _ hmem with h1 | h2
      · exact hid h1
      · exact h.1 h2

/-- The upserted id is always present afterwards. -/
theorem upsertAnswer_id_mem (prev : List AnsweredQuestion) (na : AnsweredQuestion) :
    na.id ∈ (upsertAnswer prev na).map (fun a => a.id) := by
  induction prev with
  | nil => simp [upsertAnswer]
  | cons a t ih =>
    by_cases hid : a.id = na.id
    · simp [upsertAnswer, hid]
    · simp only [upsertAnswer, if_neg hid, List.map_cons, List.mem_cons]
      exact Or.inr ih

/-- Upserting an id that is already present replaces: the length does
not change. -/
theorem upsertAnswer_length_of_mem (prev : List AnsweredQuestion) (na : AnsweredQuestion)
    (h : na.id ∈ prev.map (fun a => a.id)) :
    (upsertAnswer prev na).length = prev.length := by
  induction prev with
  | nil => simp at h
  | cons a t ih =>
    by_cases hid : a.id = na.id
    · simp [upsertAnswer, hid]
    · have ht : na.id ∈ t.map (fun a => a.id) := by
        simp only [List.map_cons, List.mem_cons] at h
        rcases h with h | h
        · exact absurd h.symm hid
        · exact h
      simp [upsertAnswer, hid, ih ht]

/-- Upserting an id that is absent appends at the end. -/
theorem upsertAnswer_of_not_mem (prev : List AnsweredQuestion) (na : AnsweredQuestion)
    (h : na.id ∉ prev.map (fun a => a.id)) :
    upsertAnswer prev na = prev ++ [na] := by
  induction prev with
  | nil => simp [upsertAnswer]
  | cons a t ih =>
    simp only [List.map_cons, List.mem_cons, not_or] at h
    have hid : a.id ≠ na.id := fun hc => h.1 hc.symm
    simp [upsertAnswer, hid, ih h.2]

/-! ### Claim theorems -/

/-- C10: the create operation rejects with Forbidden any request whose
body-supplied userId differs from the authenticated caller's id, before
input validation (the mismatch branch fires for arbitrary, even
otherwise invalid, bodies) and before any session document is written
(the store comes back unchanged); only when they match (and the inputs
are valid) is a new active session with empty questions inserted. -/
theorem create_owner_check_first
    (store : Store) (authUid : String) (body : CreateBody) (newId : String) :
    (body.userId ≠ authUid →
      scheduleInterview store authUid body newId =
        (.error (.forbidden "Unauthorized: User ID mismatch."), store)) ∧
    (∀ n : Int, body.userId = authUid → body.numQuestions = some n → 0 < n →
      body.userId ≠ "" → body.category ≠ "" → body.difficulty ≠ "" →
      ∃ doc : SessionDoc,
        scheduleInterview store authUid body newId = (.ok newId, store.put newId doc) ∧
        doc.status = .active ∧ doc.questions = [] ∧ doc.resultQuestions = [] ∧
        doc.userId = body.userId ∧ doc.overallScore = none ∧
        (store.put newId doc).find newId = some doc) := by
  constructor
  · intro h
    simp [scheduleInterview, h]
  · intro n hmatch hnum hpos hu hc hd
    have hu' : authUid ≠ "" := hmatch ▸ hu
    refine ⟨{ userId := body.userId
              category := body.category
              difficulty := body.difficulty
              numQuestions := n
              status := .active
              questions := []
              resultQuestions := []
              overallScore := none
              strengths := []
              improvements := []
              duration := none },
      ?_, rfl, rfl, rfl, rfl, rfl, Store.find_put _ _ _⟩
    simp [scheduleInterview, hmatch, hnum, hu, hu', hc, hd, not_le.mpr hpos]

/-- Witness for `create_owner_check_first`: both branches at concrete
inputs. -/
theorem create_owner_check_first_witness :
    scheduleInterview [] "u1"
      { userId := "u2", category := "", difficulty := "", numQuestions := none } "i9" =
      (.error (.forbidden "Unauthorized: User ID mismatch."), []) :=
  (create_owner_check_first [] "u1"
    { userId := "u2", category := "", difficulty := "", numQuestions := none } "i9").1
    (by decide)

/-- C1 counterexample: the evaluate route performs no ownership check.
The sample session is owned by "u1", the caller is "u2" ≠ "u1", yet
evaluateAnswer answers with a 200 success instead of Forbidden. -/
theorem evaluate_ignores_owner_counterexample :
    sampleDoc.userId = "u1" ∧ ("u2" : String) ≠ "u1" ∧
    sampleStore.find "i1" = some sampleDoc ∧
    (evaluateAnswer sampleStore "u2" sampleEvalBody
        (.ok (some "fine") (some 80) (some []))).1 = .success "fine" 80 [] ∧
    ((evaluateAnswer sampleStore "u2" sampleEvalBody
        (.ok (some "fine") (some 80) (some []))).1).httpStatus = 200 := by
  refine ⟨rfl, by decide, rfl, by decide, rfl⟩

/-- C1 (amended): every operation that reads the session document —
getInterview (question materialization), completeInterview,
cancelInterview, getInterviewResults and downloadInterviewReport —
fails with a 403 Forbidden error and performs no write (the store comes
back unchanged) when the caller id differs from the session's owner;
evaluateAnswer, by contrast, performs no ownership check at all, though
it also never writes the session (its store also comes back
unchanged). -/
theorem owner_mismatch_forbidden
    (store : Store) (id caller : String) (doc : SessionDoc)
    (reply : GenQuestionsReply) (fresh : Nat → String)
    (body : CompleteBody) (ebody : EvaluateBody) (er : EvalReply)
    (qs : List AnsweredQuestion) (score : Int)
    (hid : id ≠ "") (hfind : store.find id = some doc)
    (howner : doc.userId ≠ caller)
    (hbid : body.interviewId = id) (hbq : body.questions = some qs)
    (hbs : body.overallScore = some score) :
    (∃ m, getInterview store id caller reply fresh = (.error (.forbidden m), store)) ∧
    (∃ m, completeInterview store caller body = (.error (.forbidden m), store)) ∧
    (∃ m, cancelInterview store id caller = (.error (.forbidden m), store)) ∧
    (∃ m, getInterviewResults store id caller = (.error (.forbidden m), store)) ∧
    (∃ m, downloadInterviewReport store id caller = (.error (.forbidden m), store)) ∧
    (evaluateAnswer store caller ebody er).2 = store := by
  refine ⟨⟨"Access denied. This interview does not belong to your account.", ?_⟩,
    ⟨"Access denied. This interview does not belong to your account.", ?_⟩,
    ⟨"Access denied. This interview does not belong to your account.", ?_⟩,
    ⟨"Access denied. This interview does not belong to your account.", ?_⟩,
    ⟨"Access denied. This interview report does not belong to your account.", ?_⟩,
    evaluateAnswer_store_unchanged store caller ebody er⟩
  · simp [getInterview, hid, hfind, howner]
  · simp [completeInterview, hbq, hbs, hbid, hid, hfind, howner]
  · simp [cancelInterview, hid, hfind, howner]
  · simp [getInterviewResults, hid, hfind, howner]
  · simp [downloadInterviewReport, hid, hfind, howner]

/-- Witness for `owner_mismatch_forbidden` at the sample session with
caller "u2". -/
theorem owner_mismatch_forbidden_witness :
    (∃ m, getInterview sampleStore "i1" "u2" (.ok []) (fun _ => "g") =
      (.error (.forbidden m), sampleStore)) ∧
    (∃ m, completeInterview sampleStore "u2" mismatchedCompleteBody =
      (.error (.forbidden m), sampleStore)) ∧
    (∃ m, cancelInterview sampleStore "i1" "u2" = (.error (.forbidden m), sampleStore)) ∧
    (∃ m, getInterviewResults sampleStore "i1" "u2" = (.error (.forbidden m), sampleStore)) ∧
    (∃ m, downloadInterviewReport sampleStore "i1" "u2" = (.error (.forbidden m), sampleStore)) ∧
    (evaluateAnswer sampleStore "u2" sampleEvalBody (.parseFail "junk")).2 = sampleStore :=
  owner_mismatch_forbidden sampleStore "i1" "u2" sampleDoc (.ok []) (fun _ => "g")
    mismatchedCompleteBody sampleEvalBody (.parseFail "junk") sampleAnswers 999
    (by decide) rfl (by decide) rfl rfl rfl

/-- C3: a session's status only ever transitions active→completed (via
complete) or active→cancelled (via cancel); calling complete or cancel
on a non-active session is rejected with an InvalidState error (sent as
400) and the store comes back unchanged, so completed and cancelled are
terminal. -/
theorem status_state_machine
    (store : Store) (id caller : String) (doc : SessionDoc)
    (body : CompleteBody) (qs : List AnsweredQuestion) (score : Int)
    (hid : id ≠ "") (hfind : store.find id = some doc)
    (howner : doc.userId = caller)
    (hbid : body.interviewId = id) (hbq : body.questions = some qs)
    (hbs : body.overallScore = some score) :
    (doc.status = .active →
      ∃ doc' doc'' : SessionDoc,
        completeInterview store caller body = (.ok (), store.put id doc') ∧
        doc'.status = .completed ∧ (store.put id doc').find id = some doc' ∧
        cancelInterview store id caller = (.ok (), store.put id doc'') ∧
        doc''.status = .cancelled ∧ (store.put id doc'').find id = some doc'') ∧
    (doc.status ≠ .active →
      (∃ m, completeInterview store caller body = (.error (.invalidState m), store)) ∧
      (∃ m, cancelInterview store id caller = (.error (.invalidState m), store))) := by
  subst hbid
  constructor
  · intro hactive
    refine ⟨{ doc with
          status := .completed
          overallScore := some score
          strengths := body.strengths
          improvements := body.improvements
          resultQuestions := qs
          duration := if body.duration = "" then none else some body.duration },
      { doc with status := .cancelled },
      ?_, rfl, Store.find_put _ _ _, ?_, rfl, Store.find_put _ _ _⟩
    · simp [completeInterview, hbq, hbs, hid, hfind, howner, hactive]
    · simp [cancelInterview, hid, hfind, howner, hactive]
  · intro hnot
    constructor
    · refine ⟨"Interview is already completed or cancelled. Cannot complete.", ?_⟩
      simp [completeInterview, hbq, hbs, hid, hfind, howner, hnot]
    · refine ⟨"Interview cannot be cancelled.", ?_⟩
      simp [cancelInterview, hid, hfind, howner, hnot]

/-- Witness for `status_state_machine` at the active sample session. -/
theorem status_state_machine_witness :
    (sampleDoc.status = .active →
      ∃ doc' doc'' : SessionDoc,
        completeInterview sampleStore "u1" mismatchedCompleteBody =
          (.ok (), sampleStore.put "i1" doc') ∧
        doc'.status = .completed ∧ (sampleStore.put "i1" doc').find "i1" = some doc' ∧
        cancelInterview sampleStore "i1" "u1" = (.ok (), sampleStore.put "i1" doc'') ∧
        doc''.status = .cancelled ∧ (sampleStore.put "i1" doc'').find "i1" = some doc'') ∧
    (sampleDoc.status ≠ .active →
      (∃ m, completeInterview sampleStore "u1" mismatchedCompleteBody =
        (.error (.invalidState m), sampleStore)) ∧
      (∃ m, cancelInterview sampleStore "i1" "u1" =
        (.error (.invalidState m), sampleStore))) :=
  status_state_machine sampleStore "i1" "u1" sampleDoc mismatchedCompleteBody
    sampleAnswers 999 (by decide) rfl rfl rfl rfl rfl

/-- C4: once a session's questions sequence is non-empty, getInterview
neither consults the generative service (the same response comes back
for every upstream reply and uuid supply) nor modifies the store, so
calling it twice returns the identical question sequence. -/
theorem materialized_get_idempotent
    (store : Store) (id caller : String) (doc : SessionDoc)
    (r1 r2 : GenQuestionsReply) (f1 f2 : Nat → String)
    (hid : id ≠ "") (hfind : store.find id = some doc)
    (howner : doc.userId = caller)
    (hst : doc.status = .active ∨ doc.status = .completed)
    (hq : doc.questions ≠ []) :
    ∃ resp, getInterview store id caller r1 f1 = (.ok resp, store) ∧
      getInterview store id caller r2 f2 = (.ok resp, store) ∧
      resp.questions = doc.questions := by
  refine ⟨{ interviewId := id
            category := doc.category
            difficulty := doc.difficulty
            totalQuestions := doc.numQuestions
            questions := doc.questions
            durationMinutes := if doc.numQuestions = 10 then 30 else 15
            status := doc.status },
    ?_, ?_, rfl⟩ <;>
    rcases hst with hst | hst <;>
      simp [getInterview, hid, hfind, howner, hst, hq]

/-- Witness for `materialized_get_idempotent` at the sample session,
with two different upstream replies. -/
theorem materialized_get_idempotent_witness :
    ∃ resp, getInterview sampleStore "i1" "u1" .fail (fun _ => "a") = (.ok resp, sampleStore) ∧
      getInterview sampleStore "i1" "u1" (.ok [{ id := "z", text := "Z?" }]) (fun _ => "b") =
        (.ok resp, sampleStore) ∧
      resp.questions = sampleDoc.questions :=
  materialized_get_idempotent sampleStore "i1" "u1" sampleDoc .fail
    (.ok [{ id := "z", text := "Z?" }]) (fun _ => "a") (fun _ => "b")
    (by decide) rfl rfl (Or.inl rfl) (by decide)

/-- C7: when the questions sequence is still empty and the generative
call fails or returns unparseable output, getInterview fails with an
UpstreamError (sent as 500) and the store comes back unchanged — no
partial question list is persisted. -/
theorem generation_failure_aborts
    (store : Store) (id caller : String) (doc : SessionDoc) (fresh : Nat → String)
    (hid : id ≠ "") (hfind : store.find id = some doc)
    (howner : doc.userId = caller)
    (hst : doc.status = .active ∨ doc.status = .completed)
    (hq : doc.questions = []) :
    getInterview store id caller .fail fresh =
      (.error (.upstream "Failed to parse generated questions from AI."), store) := by
  rcases hst with hst | hst <;> simp [getInterview, hid, hfind, howner, hst, hq]

/-- Witness for `generation_failure_aborts` at the unmaterialized sample
session. -/
theorem generation_failure_aborts_witness :
    getInterview emptyQStore "i1" "u1" .fail (fun _ => "g") =
      (.error (.upstream "Failed to parse generated questions from AI."), emptyQStore) :=
  generation_failure_aborts emptyQStore "i1" "u1" emptyQDoc (fun _ => "g")
    (by decide) rfl rfl (Or.inl rfl) rfl

/-- Filling missing ids preserves the number of questions. -/
theorem assignIds_length (fresh : Nat → String) (i : Nat) (qs : List Question) :
    (assignIds fresh i qs).length = qs.length := by
  induction qs generalizing i with
  | nil => rfl
  | cons q t ih => simp [assignIds, ih]

/-- Filling missing ids preserves the question texts. -/
theorem assignIds_texts (fresh : Nat → String) (i : Nat) (qs : List Question) :
    (assignIds fresh i qs).map (fun q => q.text) = qs.map (fun q => q.text) := by
  induction qs generalizing i with
  | nil => rfl
  | cons q t ih => simp [assignIds, ih]

/-- C9 counterexample: the requested question count is not enforced.
The sample session requests 3 questions, the upstream reply parses to a
single question, and getInterview succeeds with a 1-element questions
sequence. -/
theorem question_count_not_enforced_counterexample :
    emptyQDoc.numQuestions = 3 ∧
    (getInterview emptyQStore "i1" "u1"
        (.ok [{ id := "qa", text := "Tell me about HR." }]) (fun _ => "g")).1 =
      .ok { interviewId := "i1"
            category := "HR"
            difficulty := "Easy"
            totalQuestions := 3
            questions := [{ id := "qa", text := "Tell me about HR." }]
            durationMinutes := 15
            status := .active } ∧
    ¬([{ id := "qa", text := "Tell me about HR." }] : List Question).length = 3 :=
  ⟨rfl, by decide, by decide⟩

/-- C9 (amended): materialization stores exactly the upstream-parsed
array, with a generated id substituted for each missing one: its length
is the upstream array's length (not necessarily the requested count)
and its texts are the upstream texts (not necessarily non-empty) — the
handler checks neither the count, nor text non-emptiness, nor id
uniqueness. When the upstream reply does consist of the requested
number of well-formed questions, the claimed property follows. -/
theorem materialization_stores_upstream_list
    (store : Store) (id caller : String) (doc : SessionDoc)
    (raws : List Question) (fresh : Nat → String)
    (hid : id ≠ "") (hfind : store.find id = some doc)
    (howner : doc.userId = caller)
    (hst : doc.status = .active ∨ doc.status = .completed)
    (hq : doc.questions = []) :
    getInterview store id caller (.ok raws) fresh =
      (.ok { interviewId := id
             category := doc.category
             difficulty := doc.difficulty
             totalQuestions := doc.numQuestions
             questions := assignIds fresh 0 raws
             durationMinutes := if doc.numQuestions = 10 then 30 else 15
             status := doc.status },
       store.put id { doc with questions := assignIds fresh 0 raws }) ∧
    (store.put id { doc with questions := assignIds fresh 0 raws }).find id =
      some { doc with questions := assignIds fresh 0 raws } ∧
    (assignIds fresh 0 raws).length = raws.length ∧
    (assignIds fresh 0 raws).map (fun q => q.text) = raws.map (fun q => q.text) ∧
    ((∀ q ∈ raws, q.text ≠ "") → ∀ q ∈ assignIds fresh 0 raws, q.text ≠ "") := by
  refine ⟨?_, Store.find_put _ _ _, assignIds_length _ _ _, assignIds_texts _ _ _, ?_⟩
  · rcases hst with hst | hst <;> simp [getInterview, hid, hfind, howner, hst, hq]
  · intro hall q hmem
    have htext : q.text ∈ (assignIds fresh 0 raws).map (fun q => q.text) :=
      List.mem_map_of_mem _ hmem
    rw [assignIds_texts] at htext
    obtain ⟨r, hr, hrt⟩ := List.mem_map.mp htext
    exact hrt ▸ hall r hr

/-- Witness for `materialization_stores_upstream_list` at the
unmaterialized sample session with a two-question upstream reply, one
question lacking an id. -/
theorem materialization_stores_upstream_list_witness :
    (getInterview emptyQStore "i1" "u1"
        (.ok [{ id := "", text := "A?" }, { id := "qb", text := "B?" }])
        (fun i => "gen" ++ toString i)).1 =
      .ok { interviewId := "i1"
            category := "HR"
            difficulty := "Easy"
            totalQuestions := 3
            questions := assignIds (fun i => "gen" ++ toString i) 0
              [{ id := "", text := "A?" }, { id := "qb", text := "B?" }]
            durationMinutes := 15
            status := .active } :=
  congrArg Prod.fst
    ((materialization_stores_upstream_list emptyQStore "i1" "u1" emptyQDoc
      [{ id := "", text := "A?" }, { id := "qb", text := "B?" }]
      (fun i => "gen" ++ toString i)
      (by decide) rfl rfl (Or.inl rfl) rfl).1)

/-- C8 counterexample: the returned score is not clamped to [0,100].
With a well-formed request (empty answer text) and a parseable upstream
reply carrying score 150, the handler succeeds and returns 150. -/
theorem score_range_not_enforced_counterexample :
    (evaluateAnswer sampleStore "u1" emptyAnswerEvalBody
        (.ok (some "great") (some 150) (some []))).1 = .success "great" 150 [] ∧
    ¬((150 : Int) ≤ 100) :=
  ⟨by decide, by decide⟩

/-- C8 (amended): for a request with well-formed fields — the answer
text may be empty, there is no hypothesis on `userAnswer` — the handler
never throws: a parseable upstream reply yields a 200 success whose
score is the upstream number passed through unvalidated (0 when the
field is missing or not a number), an unparseable reply yields the
degraded score 50, and the returned score lies in [0,100] only when the
upstream score (if any) does. -/
theorem evaluate_score_passthrough
    (store : Store) (caller : String) (body : EvaluateBody)
    (f : Option String) (sc : Option Int) (kp : Option (List KeyPoint)) (raw : String)
    (hq : isBlank body.question = false) (hc : body.category ≠ "")
    (hd : body.difficulty ≠ "") (hi : body.interviewId ≠ "") (hqi : body.questionId ≠ "") :
    (∃ fb, (evaluateAnswer store caller body (.ok f sc kp)).1 =
      .success fb (sc.getD 0) (kp.getD [])) ∧
    (∃ m fb kps, (evaluateAnswer store caller body (.parseFail raw)).1 =
      .parseFailure m fb 50 kps) ∧
    ((∀ s ∈ sc, 0 ≤ s ∧ s ≤ 100) → 0 ≤ sc.getD 0 ∧ sc.getD 0 ≤ 100) := by
  refine ⟨⟨(match f with
      | some s => if s = "" then "No specific feedback provided." else s
      | none => "No specific feedback provided."), ?_⟩,
    ⟨"AI provided malformed response. Please try again.",
     "Failed to parse AI feedback. Raw response: " ++ raw,
     [{ text := "AI response parsing failed", met := false }], ?_⟩, ?_⟩
  · simp [evaluateAnswer, hq, hc, hd, hi, hqi]
  · simp [evaluateAnswer, hq, hc, hd, hi, hqi]
  · intro hbound
    cases sc with
    | none => simp
    | some s => simpa using hbound s rfl

/-- Witness for `evaluate_score_passthrough` at the sample evaluate
request with a score-95 upstream reply. -/
theorem evaluate_score_passthrough_witness :
    (∃ fb, (evaluateAnswer sampleStore "u1" sampleEvalBody
      (.ok (some "good") (some 95) (some []))).1 =
      .success fb ((some (95 : Int)).getD 0) ((some ([] : List KeyPoint)).getD [])) ∧
    (∃ m fb kps, (evaluateAnswer sampleStore "u1" sampleEvalBody (.parseFail "junk")).1 =
      .parseFailure m fb 50 kps) ∧
    ((∀ s ∈ some (95 : Int), 0 ≤ s ∧ s ≤ 100) →
      0 ≤ (some (95 : Int)).getD 0 ∧ (some (95 : Int)).getD 0 ≤ 100) :=
  evaluate_score_passthrough sampleStore "u1" sampleEvalBody
    (some "good") (some 95) (some []) "junk"
    (by decide) (by decide) (by decide) (by decide) (by decide)

/-- C5 counterexample: when the upstream reply is unparseable the
request does not succeed for the caller — the handler responds with
HTTP 500 (not 200), and the repository's own client consequently
discards the degraded body, losing the submitted answer. -/
theorem parse_failure_fails_request_counterexample :
    ((evaluateAnswer sampleStore "u1" sampleEvalBody (.parseFail "garbage")).1).httpStatus
      = 500 ∧
    ((evaluateAnswer sampleStore "u1" sampleEvalBody (.parseFail "garbage")).1).httpStatus
      ≠ 200 ∧
    (evaluateAnswer sampleStore "u1" sampleEvalBody (.parseFail "garbage")).1 =
      .parseFailure "AI provided malformed response. Please try again."
        "Failed to parse AI feedback. Raw response: garbage" 50
        [{ text := "AI response parsing failed", met := false }] ∧
    clientHandleEvaluate sampleAnswers "q1" "What is HR?" "A"
      ((evaluateAnswer sampleStore "u1" sampleEvalBody (.parseFail "garbage")).1) =
      sampleAnswers := by
  refine ⟨?_, ?_, ?_, ?_⟩ <;> decide

/-- C5 (amended): on an unparseable upstream reply the evaluate handler
does build a degraded default body — explanatory feedback, score 50,
one unmet key point — but sends it with HTTP status 500, so the request
fails for the caller rather than succeeding; the repository's client
treats the non-2xx response as an error and leaves its collected
answers unchanged, so the user's answer for that question is lost. -/
theorem evaluate_parse_failure_degraded
    (store : Store) (caller : String) (body : EvaluateBody) (raw : String)
    (prev : List AnsweredQuestion) (qid qtext ans : String)
    (hq : isBlank body.question = false) (hc : body.category ≠ "")
    (hd : body.difficulty ≠ "") (hi : body.interviewId ≠ "") (hqi : body.questionId ≠ "") :
    (evaluateAnswer store caller body (.parseFail raw)).1 =
      .parseFailure "AI provided malformed response. Please try again."
        ("Failed to parse AI feedback. Raw response: " ++ raw) 50
        [{ text := "AI response parsing failed", met := false }] ∧
    ((evaluateAnswer store caller body (.parseFail raw)).1).httpStatus = 500 ∧
    clientHandleEvaluate prev qid qtext ans
      ((evaluateAnswer store caller body (.parseFail raw)).1) = prev := by
  have h : (evaluateAnswer store caller body (.parseFail raw)).1 =
      .parseFailure "AI provided malformed response. Please try again."
        ("Failed to parse AI feedback. Raw response: " ++ raw) 50
        [{ text := "AI response parsing failed", met := false }] := by
    simp [evaluateAnswer, hq, hc, hd, hi, hqi]
  exact ⟨h, by rw [h]; rfl, by rw [h]; rfl⟩

/-- Witness for `evaluate_parse_failure_degraded` at the sample request. -/
theorem evaluate_parse_failure_degraded_witness :
    (evaluateAnswer sampleStore "u1" sampleEvalBody (.parseFail "junk!")).1 =
      .parseFailure "AI provided malformed response. Please try again."
        ("Failed to parse AI feedback. Raw response: " ++ "junk!") 50
        [{ text := "AI response parsing failed", met := false }] ∧
    ((evaluateAnswer sampleStore "u1" sampleEvalBody (.parseFail "junk!")).1).httpStatus
      = 500 ∧
    clientHandleEvaluate sampleAnswers "q1" "What is HR?" ""
      ((evaluateAnswer sampleStore "u1" sampleEvalBody (.parseFail "junk!")).1) =
      sampleAnswers :=
  evaluate_parse_failure_degraded sampleStore "u1" sampleEvalBody "junk!"
    sampleAnswers "q1" "What is HR?" ""
    (by decide) (by decide) (by decide) (by decide) (by decide)

/-- C6: a successful evaluateAnswer performs no session write at all
(the store, and with it the status field, comes back unchanged — the
evaluated-answers collection lives in the client's state), and the
client's upsert keyed by question id keeps exactly one record per
answered question: the record for the new id appears exactly once, ids
stay distinct, re-answering replaces rather than duplicates (the length
is unchanged), and a first answer appends. -/
theorem evaluate_upsert_semantics
    (store : Store) (caller : String) (body : EvaluateBody) (reply : EvalReply)
    (prev : List AnsweredQuestion) (na na2 : AnsweredQuestion)
    (hnodup : (prev.map (fun a => a.id)).Nodup) (hid2 : na2.id = na.id) :
    (evaluateAnswer store caller body reply).2 = store ∧
    (∀ fb scr kps, clientHandleEvaluate prev na.id na.text na.userAnswer
        (.success fb scr kps) =
      upsertAnswer prev { id := na.id
                          text := na.text
                          userAnswer := na.userAnswer
                          feedback := fb
                          score := scr
                          keyPoints := kps }) ∧
    (upsertAnswer prev na).countP (fun a => a.id = na.id) = 1 ∧
    ((upsertAnswer prev na).map (fun a => a.id)).Nodup ∧
    (upsertAnswer (upsertAnswer prev na) na2).length = (upsertAnswer prev na).length ∧
    (na.id ∉ prev.map (fun a => a.id) → upsertAnswer prev na = prev ++ [na]) := by
  refine ⟨evaluateAnswer_store_unchanged _ _ _ _, fun _ _ _ => rfl,
    upsertAnswer_countP prev na hnodup,
    upsertAnswer_ids_nodup prev na hnodup, ?_,
    upsertAnswer_of_not_mem prev na⟩
  refine upsertAnswer_length_of_mem _ na2 ?_
  rw [hid2]
  exact upsertAnswer_id_mem prev na

/-- Witness for `evaluate_upsert_semantics`: re-answering question "q1"
in the sample collection. -/
theorem evaluate_upsert_semantics_witness :
    (evaluateAnswer sampleStore "u1" sampleEvalBody
      (.ok (some "fine") (some 80) (some []))).2 = sampleStore ∧
    (∀ fb scr kps, clientHandleEvaluate sampleAnswers "q1" "What is HR?" "B"
        (.success fb scr kps) =
      upsertAnswer sampleAnswers { id := "q1"
                                   text := "What is HR?"
                                   userAnswer := "B"
                                   feedback := fb
                                   score := scr
                                   keyPoints := kps }) ∧
    (upsertAnswer sampleAnswers newAnswer).countP (fun a => a.id = newAnswer.id) = 1 ∧
    ((upsertAnswer sampleAnswers newAnswer).map (fun a => a.id)).Nodup ∧
    (upsertAnswer (upsertAnswer sampleAnswers newAnswer) newAnswer2).length =
      (upsertAnswer sampleAnswers newAnswer).length ∧
    (newAnswer.id ∉ sampleAnswers.map (fun a => a.id) →
      upsertAnswer sampleAnswers newAnswer = sampleAnswers ++ [newAnswer]) :=
  evaluate_upsert_semantics sampleStore "u1" sampleEvalBody
    (.ok (some "fine") (some 80) (some [])) sampleAnswers newAnswer newAnswer2
    (by decide) rfl

/-- C2 counterexample: the complete route does not recompute the
aggregate server-side. The sample session is completed with a body
carrying one answer of score 50 but a client-supplied overallScore of
999; the call succeeds and the stored overall score is 999, while the
rounded mean of the evaluated answers (as the repository's own client
computes it) is 50. -/
theorem complete_score_mismatch_counterexample :
    (completeInterview sampleStore "u1" mismatchedCompleteBody).1 = .ok () ∧
    ((completeInterview sampleStore "u1" mismatchedCompleteBody).2.find "i1").map
      (fun d => d.overallScore) = some (some 999) ∧
    clientOverallScore sampleAnswers = 50 ∧
    (999 : Int) ≠ 50 := by
  refine ⟨by decide, by decide, ?_, by decide⟩
  simp [clientOverallScore, sampleAnswers]

/-- C2 (amended): the complete operation persists the client-supplied
overallScore verbatim — no server-side recomputation guards the
aggregate. The repository's own client does send
`Math.round(totalScore / answers.length)` (0 when no answer was
evaluated), so a completion driven by this client stores the rounded
mean of the answers it submits, but any other client-supplied figure is
stored just as readily. -/
theorem complete_trusts_client_score
    (store : Store) (caller : String) (body : CompleteBody)
    (doc : SessionDoc) (qs : List AnsweredQuestion) (score : Int)
    (hbq : body.questions = some qs) (hbs : body.overallScore = some score)
    (hid : body.interviewId ≠ "")
    (hfind : store.find body.interviewId = some doc)
    (howner : doc.userId = caller) (hactive : doc.status = .active) :
    ∃ doc' : SessionDoc,
      completeInterview store caller body = (.ok (), store.put body.interviewId doc') ∧
      (store.put body.interviewId doc').find body.interviewId = some doc' ∧
      doc'.status = .completed ∧
      doc'.overallScore = some score ∧
      doc'.resultQuestions = qs ∧
      (score = clientOverallScore qs →
        (qs = [] → doc'.overallScore = some 0) ∧
        (qs ≠ [] → doc'.overallScore =
          some (round (((qs.map (fun a => a.score)).sum : ℚ) / (qs.length : ℚ))))) := by
  refine ⟨{ doc with
      status := .completed
      overallScore := some score
      strengths := body.strengths
      improvements := body.improvements
      resultQuestions := qs
      duration := if body.duration = "" then none else some body.duration },
    ?_, Store.find_put _ _ _, rfl, rfl, rfl, ?_⟩
  · simp [completeInterview, hbq, hbs, hid, hfind, howner, hactive]
  · intro hscore
    constructor
    · intro hnil
      subst hnil
      simp [clientOverallScore] at hscore
      simp [hscore]
    · intro hne
      have hlen : qs.length > 0 := List.length_pos.mpr hne
      rw [clientOverallScore, if_pos hlen] at hscore
      simp [hscore]

/-- Witness for `complete_trusts_client_score` at the sample session
and the body the repository's client would send for one answer of
score 50. -/
theorem complete_trusts_client_score_witness :
    ∃ doc' : SessionDoc,
      completeInterview sampleStore "u1" honestCompleteBody =
        (.ok (), sampleStore.put "i1" doc') ∧
      (sampleStore.put "i1" doc').find "i1" = some doc' ∧
      doc'.status = .completed ∧
      doc'.overallScore = some 50 ∧
      doc'.resultQuestions = sampleAnswers ∧
      ((50 : Int) = clientOverallScore sampleAnswers →
        (sampleAnswers = [] → doc'.overallScore = some 0) ∧
        (sampleAnswers ≠ [] → doc'.overallScore =
          some (round (((sampleAnswers.map (fun a => a.score)).sum : ℚ) /
            (sampleAnswers.length : ℚ))))) :=
  complete_trusts_client_score sampleStore "u1" honestCompleteBody sampleDoc
    sampleAnswers 50 rfl rfl (by decide) rfl rfl rfl

end InterviewPlatform
